import Mathlib

/-!
Shallow embedding of the `temp_interpolation` package: two wrapper classes
around third-party map widgets.

* `MapA` embeds `temp_interpolation/temp_interpolation.py`'s `Map`
  (an `ipyleaflet.Map` subclass with helper methods).
* `FoliumMap` embeds `temp_interpolation/foliummap.py`'s `Map`
  (a `folium.Map` subclass).

Python methods mutate the map in place and may raise; here each stateful
method returns the final map state, paired with `Option PyErr` when the
source can raise, so that a raise after a mutation keeps the mutation
(no rollback), exactly as in Python.

Third-party collaborators (`ipyleaflet` widget constructors, `geopandas`,
`localtileserver`, `folium`) are not part of the repository; they are
modelled as explicit parameters or as small structures recording exactly
the data the wrapper reads or stores.
-/

namespace TempInterp

/-- Python's `str.upper()` (ASCII, which covers every token the source
compares against). -/
def pyUpper (s : String) : String := String.mk (s.data.map Char.toUpper)

/-- Python's `str.lower()` (ASCII). -/
def pyLower (s : String) : String := String.mk (s.data.map Char.toLower)

/-- A scalar style value appearing in the hover-style dicts of
`temp_interpolation.py` (strings such as "yellow", numbers such as 0.2). -/
inductive SVal where
  | str (s : String)
  | num (q : ℚ)
deriving DecidableEq

/-- A Python style dict, e.g. `{"color": "yellow", "fillOpacity": 0.2}`,
as an association list. -/
abbrev Style := List (String × SVal)

/-- An in-memory geometry-interchange structure (a GeoJSON-like dict).
Its internals are never inspected by the wrapper, so an association list
of string entries is enough to state identity round-trips. -/
abbrev GeoData := List (String × String)

/-- The `ipyleaflet.GeoJSON` widget as the wrapper observes it: its `data`
trait, its `hover_style` trait, and the keyword arguments it was built
with.  Modelled from the library: the constructor sets the `hover_style`
trait only from a keyword literally named "hover_style"; any other
keyword (such as the source's misspelt "hover_sytle") does not set it,
and the trait keeps its default, the empty dict. -/
structure GeoJSONObj where
  data : GeoData
  hover_style : Style
  kwargs : List (String × Style)
deriving DecidableEq

/-- `ipyleaflet.GeoJSON(data=data, **kwargs)`. -/
def mkGeoJSON (data : GeoData) (kwargs : List (String × Style)) : GeoJSONObj :=
  { data := data
  , hover_style := (kwargs.lookup "hover_style").getD []
  , kwargs := kwargs }

/-- The layer objects the helper methods construct and attach. -/
inductive Layer where
  | tile (url : String) (name : String)
  | geojson (g : GeoJSONObj)
  | imageOverlay (url : String) (bounds : List (List ℚ)) (opacity : ℚ)
  | videoOverlay (url : String) (bounds : List (List ℚ)) (opacity : ℚ)
  | wms (url : String) (layers : String) (name : Option String)
      (format : String) (transparent : Bool) (version : String)
deriving DecidableEq

/-- Map controls (only `ipyleaflet.LayersControl` is used). -/
inductive Control where
  | layersControl
deriving DecidableEq

/-- Python exceptions the wrapper can raise or swallow. -/
inductive PyErr where
  | keyError (k : String)
  | nameError (n : String)
  | resolveError (s : String)
deriving DecidableEq

/-- The observable state of a `temp_interpolation.Map` (MapA): center,
zoom, layout height, scroll-wheel flag, the ordered layer list, the
ordered control list, and the view bounds last passed to `fit_bounds`. -/
structure MapA where
  center : List ℚ
  zoom : ℕ
  height : String
  scroll_wheel_zoom : Bool
  layers : List Layer
  controls : List Control
  viewBounds : Option (List (List ℚ))
deriving DecidableEq

/-- `Map.__init__` (temp_interpolation.py lines 8-18): forwards center and
zoom to the base class, stores the height on the layout, and enables
scroll-wheel zoom.  The base `ipyleaflet.Map` starts with empty layer and
control lists in this model (its implicit default basemap layer plays no
role in any claim). -/
def MapA.init (center : List ℚ := [19, 72]) (zoom : ℕ := 2)
    (height : String := "600px") : MapA :=
  { center := center, zoom := zoom, height := height
  , scroll_wheel_zoom := true
  , layers := [], controls := [], viewBounds := none }

/-- `ipyleaflet.Map.add_layer`: appends a layer. -/
def MapA.add_layer (m : MapA) (l : Layer) : MapA :=
  { m with layers := m.layers ++ [l] }

/-- `ipyleaflet.Map.add_control`: appends a control. -/
def MapA.add_control (m : MapA) (c : Control) : MapA :=
  { m with controls := m.controls ++ [c] }

/-- `ipyleaflet.Map.fit_bounds`: records the requested view bounds. -/
def MapA.fit_bounds (m : MapA) (b : List (List ℚ)) : MapA :=
  { m with viewBounds := some b }

/-- `Map.add_basemap` (lines 20-34).  The dynamic
`eval(f"ipyleaflet.basemaps.{basemap}").build_url()` is modelled by the
parameter `resolve`: `resolve name = some url` when the registry lookup
and URL build succeed, `none` when they raise.  On any failure the
`except:` branch retries with the fixed name "OpenTopoMap" (still
labelling the layer with the requested name); only a failure of that
retry would propagate. -/
def MapA.add_basemap (m : MapA) (resolve : String → Option String)
    (basemap : String := "OpenTopoMap") : MapA × Option PyErr :=
  match resolve basemap with
  | some url => (m.add_layer (Layer.tile url basemap), none)
  | none =>
      match resolve "OpenTopoMap" with
      | some url => (m.add_layer (Layer.tile url basemap), none)
      | none => (m, some (PyErr.resolveError "OpenTopoMap"))

/-- The four-entry registry of `Map.add_google_map` (line 44). -/
def map_types : List (String × String) :=
  [("ROADMAP", "m"), ("SATELLITE", "s"), ("HYBRID", "h"), ("TERRAIN", "t")]

/-- `Map.add_google_map` (lines 36-51): upper-cases the token, looks it up
in `map_types` (a missing key raises `KeyError` before any layer is
built), builds the tile URL from the single-letter code, and attaches a
tile layer named "Google Map". -/
def MapA.add_google_map (m : MapA) (map_type : String := "ROADMAP") :
    MapA × Option PyErr :=
  match map_types.lookup (pyUpper map_type) with
  | none => (m, some (PyErr.keyError (pyUpper map_type)))
  | some code =>
      let url := "https://mt1.google.com/vt/lyrs=" ++ pyLower code
        ++ "&x={x}&y={y}&z={z}"
      (m.add_layer (Layer.tile url "Google Map"), none)

/-- The geopandas `total_bounds` array `[minx, miny, maxx, maxy]`:
field `minx` is index 0, `miny` index 1, `maxx` index 2, `maxy` index 3,
so the source's `[[bounds[1], bounds[0]], [bounds[3], bounds[2]]]` is
`[[miny, minx], [maxy, maxx]]`. -/
structure TotalBounds where
  minx : ℚ
  miny : ℚ
  maxx : ℚ
  maxy : ℚ
deriving DecidableEq

/-- A geopandas `GeoDataFrame` as `add_vector` observes it: its coordinate
reference system (EPSG code), its `__geo_interface__`, and its
`total_bounds`. -/
structure GeoDataFrame where
  crs : ℕ
  geo_interface : GeoData
  total_bounds : TotalBounds
deriving DecidableEq

/-- The two geopandas operations `add_vector` calls.  `read_file` loads a
path or URL; `to_crs` reprojects a frame to the given EPSG code.  Both
are third-party collaborators, so they are environment parameters. -/
structure Gpd where
  read_file : String → GeoDataFrame
  to_crs : GeoDataFrame → ℕ → GeoDataFrame

/-- The `vector` argument of `add_vector`: the source branches on
`isinstance(vector, str)` versus `isinstance(vector, dict)`. -/
inductive VectorInput where
  | path (s : String)
  | dict (d : GeoData)

/-- The default hover style of `add_vector` (line 72):
`{"color": "yellow", "fillOpacity": 0.2}` (0.2 written as 2/10). -/
def default_hover_style : Style :=
  [("color", SVal.str "yellow"), ("fillOpacity", SVal.num (2/10))]

/-- `Map.add_vector` (lines 53-86).  With a string input it loads the
file, reprojects to EPSG:4326 and takes the geo interface; with a dict
input it uses the dict directly, and the local `gdf` stays unbound
(`none` here).  It then builds the GeoJSON widget — passing the hover
style under the keyword "hover_sytle", exactly as (mis)spelt at line 81 —
attaches it, and only afterwards, when `zoom_to_layer` is true, reads
`gdf.total_bounds`: with a dict input this raises `NameError` with the
layer already attached. -/
def MapA.add_vector (m : MapA) (gpd : Gpd) (vector : VectorInput)
    (zoom_to_layer : Bool := true) (hover_style : Option Style := none)
    (kwargs : List (String × Style) := []) : MapA × Option PyErr :=
  let hs := hover_style.getD default_hover_style
  let gdfOpt : Option GeoDataFrame :=
    match vector with
    | VectorInput.path p => some (gpd.to_crs (gpd.read_file p) 4326)
    | VectorInput.dict _ => none
  let data : GeoData :=
    match vector with
    | VectorInput.path p => (gpd.to_crs (gpd.read_file p) 4326).geo_interface
    | VectorInput.dict d => d
  let gjson := mkGeoJSON data (("hover_sytle", hs) :: kwargs)
  let m1 := m.add_layer (Layer.geojson gjson)
  if zoom_to_layer then
    match gdfOpt with
    | some gdf =>
        (m1.fit_bounds [[gdf.total_bounds.miny, gdf.total_bounds.minx],
                        [gdf.total_bounds.maxy, gdf.total_bounds.maxx]],
         none)
    | none => (m1, some (PyErr.nameError "gdf"))
  else (m1, none)

/-- `Map.add_layer_control` (lines 88-93). -/
def MapA.add_layer_control (m : MapA) : MapA :=
  m.add_control Control.layersControl

/-- The `localtileserver.TileClient` data `add_raster` reads: the reported
center and default zoom of the raster. -/
structure TileClient where
  center : List ℚ
  default_zoom : ℕ
deriving DecidableEq

/-- `Map.add_raster` (lines 95-113): attaches the tile layer produced by
`get_leaflet_tile_layer` (an external collaborator, so the layer is a
parameter), then sets the map's center and zoom to the client's reported
center and default zoom. -/
def MapA.add_raster (m : MapA) (client : TileClient) (tile_layer : Layer) :
    MapA :=
  let m1 := m.add_layer tile_layer
  { m1 with center := client.center, zoom := client.default_zoom }

/-- `Map.add_image` (lines 115-137): builds an `ipyleaflet.ImageOverlay`
from url, bounds and opacity (default 1) and attaches it. -/
def MapA.add_image (m : MapA) (url : String) (bounds : List (List ℚ))
    (opacity : ℚ := 1) : MapA :=
  m.add_layer (Layer.imageOverlay url bounds opacity)

/-- `Map.add_video` (lines 139-161): builds an `ipyleaflet.VideoOverlay`
from url, bounds and opacity (default 1) and attaches it. -/
def MapA.add_video (m : MapA) (url : String) (bounds : List (List ℚ))
    (opacity : ℚ := 1) : MapA :=
  m.add_layer (Layer.videoOverlay url bounds opacity)

/-- `Map.add_wms_layer` (lines 163-194). -/
def MapA.add_wms_layer (m : MapA) (url : String) (layers : String)
    (name : Option String := none) (format : String := "image/png")
    (transparent : Bool := true) (version : String := "1.1.1") : MapA :=
  m.add_layer (Layer.wms url layers name format transparent version)

/-- Children of a `folium.Map` (MapB's base class): its default tile
layer and any controls added to it. -/
inductive FoliumChild where
  | layerControl
  | tileLayer (name : String)
deriving DecidableEq

/-- The observable state of a `folium.Map`. -/
structure FoliumMap where
  location : List ℚ
  zoom_start : ℕ
  options : List (String × String)
  children : List FoliumChild
deriving DecidableEq

/-- The base `folium.Map` constructor: stores location, zoom and the
forwarded keyword configuration.  It attaches its default tile layer but
no layer-visibility control. -/
def folium_map_base (location : List ℚ) (zoom_start : ℕ)
    (kwargs : List (String × String)) : FoliumMap :=
  { location := location, zoom_start := zoom_start, options := kwargs
  , children := [FoliumChild.tileLayer "openstreetmap"] }

/-- `folium.LayerControl().add_to(self)`: appends one layer-visibility
control to the map's children. -/
def folium_layer_control_add_to (m : FoliumMap) : FoliumMap :=
  { m with children := m.children ++ [FoliumChild.layerControl] }

/-- `foliummap.Map.__init__` (foliummap.py lines 4-7): forwards
`(center, zoom, kwargs)` to the base class as
`(location, zoom_start, kwargs)`, then attaches a layer control. -/
def FoliumMap.init (center : List ℚ := [0, 0]) (zoom : ℕ := 3)
    (kwargs : List (String × String) := []) : FoliumMap :=
  folium_layer_control_add_to (folium_map_base center zoom kwargs)

/-- Whether a folium child is the layer-visibility control. -/
def FoliumChild.isLayerControl : FoliumChild → Bool
  | FoliumChild.layerControl => true
  | _ => false

/-- A concrete geopandas environment for witnesses: `read_file` returns a
fixed frame in EPSG:27700, `to_crs` rewrites the EPSG code. -/
def gpdModel : Gpd :=
  { read_file := fun _ =>
      { crs := 27700
      , geo_interface := [("type", "FeatureCollection")]
      , total_bounds := { minx := 1, miny := 2, maxx := 3, maxy := 4 } }
  , to_crs := fun g e => { g with crs := e } }

/-- A concrete basemap resolver for witnesses: only "OpenTopoMap" is in
the registry. -/
def resolveModel : String → Option String :=
  fun s => if s = "OpenTopoMap"
    then some "https://a.tile.opentopomap.org/{z}/{x}/{y}.png" else none

/-- Claim C4: for each of ROADMAP, SATELLITE, HYBRID, TERRAIN given in any
letter case, `add_google_map` attaches a tile layer whose URL is the
Google template with the matching single-letter code m, s, h, t. -/
theorem add_google_map_four_tokens (m : MapA) (s : String) :
    (pyUpper s = "ROADMAP" → m.add_google_map s =
      (m.add_layer (Layer.tile
        "https://mt1.google.com/vt/lyrs=m&x={x}&y={y}&z={z}" "Google Map"),
        none)) ∧
    (pyUpper s = "SATELLITE" → m.add_google_map s =
      (m.add_layer (Layer.tile
        "https://mt1.google.com/vt/lyrs=s&x={x}&y={y}&z={z}" "Google Map"),
        none)) ∧
    (pyUpper s = "HYBRID" → m.add_google_map s =
      (m.add_layer (Layer.tile
        "https://mt1.google.com/vt/lyrs=h&x={x}&y={y}&z={z}" "Google Map"),
        none)) ∧
    (pyUpper s = "TERRAIN" → m.add_google_map s =
      (m.add_layer (Layer.tile
        "https://mt1.google.com/vt/lyrs=t&x={x}&y={y}&z={z}" "Google Map"),
        none)) := by
  refine ⟨?_, ?_, ?_, ?_⟩ <;> intro h <;>
    simp only [MapA.add_google_map, h] <;> rfl

/-- Witness for C4: the four tokens at concrete mixed cases. -/
theorem add_google_map_four_tokens_witness :
    (pyUpper "roadmap" = "ROADMAP" ∧ MapA.init.add_google_map "roadmap" =
      (MapA.init.add_layer (Layer.tile
        "https://mt1.google.com/vt/lyrs=m&x={x}&y={y}&z={z}" "Google Map"),
        none)) ∧
    (pyUpper "Satellite" = "SATELLITE" ∧
      MapA.init.add_google_map "Satellite" =
      (MapA.init.add_layer (Layer.tile
        "https://mt1.google.com/vt/lyrs=s&x={x}&y={y}&z={z}" "Google Map"),
        none)) ∧
    (pyUpper "HYBRID" = "HYBRID" ∧ MapA.init.add_google_map "HYBRID" =
      (MapA.init.add_layer (Layer.tile
        "https://mt1.google.com/vt/lyrs=h&x={x}&y={y}&z={z}" "Google Map"),
        none)) ∧
    (pyUpper "teRRain" = "TERRAIN" ∧ MapA.init.add_google_map "teRRain" =
      (MapA.init.add_layer (Layer.tile
        "https://mt1.google.com/vt/lyrs=t&x={x}&y={y}&z={z}" "Google Map"),
        none)) :=
  ⟨⟨by decide, (add_google_map_four_tokens MapA.init "roadmap").1 (by decide)⟩,
   ⟨by decide,
    (add_google_map_four_tokens MapA.init "Satellite").2.1 (by decide)⟩,
   ⟨by decide,
    (add_google_map_four_tokens MapA.init "HYBRID").2.2.1 (by decide)⟩,
   ⟨by decide,
    (add_google_map_four_tokens MapA.init "teRRain").2.2.2 (by decide)⟩⟩

/-- Claim C5: a token whose upper-cased form is not one of the four
registry keys makes `add_google_map` raise a `KeyError`, and no layer is
attached (the map is returned unchanged). -/
theorem add_google_map_unknown (m : MapA) (s : String)
    (h1 : pyUpper s ≠ "ROADMAP") (h2 : pyUpper s ≠ "SATELLITE")
    (h3 : pyUpper s ≠ "HYBRID") (h4 : pyUpper s ≠ "TERRAIN") :
    m.add_google_map s = (m, some (PyErr.keyError (pyUpper s))) := by
  have e1 : (pyUpper s == "ROADMAP") = false := beq_eq_false_iff_ne.mpr h1
  have e2 : (pyUpper s == "SATELLITE") = false := beq_eq_false_iff_ne.mpr h2
  have e3 : (pyUpper s == "HYBRID") = false := beq_eq_false_iff_ne.mpr h3
  have e4 : (pyUpper s == "TERRAIN") = false := beq_eq_false_iff_ne.mpr h4
  have hl : map_types.lookup (pyUpper s) = none := by
    simp [map_types, List.lookup, e1, e2, e3, e4]
  simp [MapA.add_google_map, hl]

/-- Witness for C5: the token "bogus". -/
theorem add_google_map_unknown_witness :
    (pyUpper "bogus" ≠ "ROADMAP" ∧ pyUpper "bogus" ≠ "SATELLITE" ∧
      pyUpper "bogus" ≠ "HYBRID" ∧ pyUpper "bogus" ≠ "TERRAIN") ∧
    MapA.init.add_google_map "bogus" =
      (MapA.init, some (PyErr.keyError "BOGUS")) :=
  ⟨⟨by decide, by decide, by decide, by decide⟩,
   by
    have h := add_google_map_unknown MapA.init "bogus"
      (by decide) (by decide) (by decide) (by decide)
    simpa using h⟩

/-- Claim C1: `add_vector` on an in-memory dict attaches a GeoJSON vector
layer whose data field equals the input dict unchanged, whatever the
other arguments (even when the call later raises). -/
theorem add_vector_dict_roundtrip (m : MapA) (gpd : Gpd) (d : GeoData)
    (ztl : Bool) (hs : Option Style) (kw : List (String × Style)) :
    ∃ g : GeoJSONObj,
      (m.add_vector gpd (VectorInput.dict d) ztl hs kw).1.layers =
        m.layers ++ [Layer.geojson g] ∧ g.data = d := by
  refine ⟨mkGeoJSON d (("hover_sytle", hs.getD default_hover_style) :: kw),
    ?_, rfl⟩
  cases ztl <;> rfl

/-- Claim C2: `add_vector` on an in-memory dict with `zoom_to_layer=True`
attaches the vector layer and then raises a `NameError` on the unbound
`gdf`; the attached layer stays (no rollback) and the view bounds are
untouched. -/
theorem add_vector_dict_zoom_name_error (m : MapA) (gpd : Gpd)
    (d : GeoData) (hs : Option Style) (kw : List (String × Style)) :
    m.add_vector gpd (VectorInput.dict d) true hs kw =
      (m.add_layer (Layer.geojson (mkGeoJSON d
        (("hover_sytle", hs.getD default_hover_style) :: kw))),
       some (PyErr.nameError "gdf")) := rfl

/-- Claim C6: when the basemap name does not resolve (the registry lookup
or URL build raises) but the default "OpenTopoMap" resolves,
`add_basemap` raises nothing and attaches a tile layer built from the
default basemap's URL. -/
theorem add_basemap_fallback (m : MapA) (resolve : String → Option String)
    (basemap u : String)
    (h1 : resolve basemap = none) (h2 : resolve "OpenTopoMap" = some u) :
    m.add_basemap resolve basemap =
      (m.add_layer (Layer.tile u basemap), none) := by
  simp [MapA.add_basemap, h1, h2]

/-- Witness for C6: the name "NonexistentName" against a registry that
holds only "OpenTopoMap". -/
theorem add_basemap_fallback_witness :
    resolveModel "NonexistentName" = none ∧
    resolveModel "OpenTopoMap" =
      some "https://a.tile.opentopomap.org/{z}/{x}/{y}.png" ∧
    MapA.init.add_basemap resolveModel "NonexistentName" =
      (MapA.init.add_layer (Layer.tile
        "https://a.tile.opentopomap.org/{z}/{x}/{y}.png" "NonexistentName"),
       none) :=
  ⟨by decide, by decide,
   add_basemap_fallback MapA.init resolveModel "NonexistentName"
     "https://a.tile.opentopomap.org/{z}/{x}/{y}.png"
     (by decide) (by decide)⟩

/-- Claim C7: `add_vector` on a path attaches a layer whose data is the
geo interface of the file's contents reprojected to EPSG:4326 (so, when
reprojection sets the frame's CRS to its target, a frame in WGS84), and
with `zoom_to_layer=True` fits the view exactly to
`[[miny, minx], [maxy, maxx]]` of the reprojected geometry's total
bounds, raising nothing. -/
theorem add_vector_path_wgs84_fit (m : MapA) (gpd : Gpd) (p : String)
    (hs : Option Style) (kw : List (String × Style))
    (hcrs : ∀ g e, (gpd.to_crs g e).crs = e) :
    (m.add_vector gpd (VectorInput.path p) true hs kw).1.layers =
      m.layers ++ [Layer.geojson (mkGeoJSON
        (gpd.to_crs (gpd.read_file p) 4326).geo_interface
        (("hover_sytle", hs.getD default_hover_style) :: kw))] ∧
    (gpd.to_crs (gpd.read_file p) 4326).crs = 4326 ∧
    (m.add_vector gpd (VectorInput.path p) true hs kw).1.viewBounds =
      some [[(gpd.to_crs (gpd.read_file p) 4326).total_bounds.miny,
             (gpd.to_crs (gpd.read_file p) 4326).total_bounds.minx],
            [(gpd.to_crs (gpd.read_file p) 4326).total_bounds.maxy,
             (gpd.to_crs (gpd.read_file p) 4326).total_bounds.maxx]] ∧
    (m.add_vector gpd (VectorInput.path p) true hs kw).2 = none :=
  ⟨rfl, hcrs _ _, rfl, rfl⟩

/-- Witness for C7: a concrete file in EPSG:27700 with total bounds
(1, 2, 3, 4). -/
theorem add_vector_path_wgs84_fit_witness :
    (∀ g e, (gpdModel.to_crs g e).crs = e) ∧
    (MapA.init.add_vector gpdModel (VectorInput.path "data.shp") true
        none []).1.viewBounds = some [[2, 1], [4, 3]] ∧
    (gpdModel.to_crs (gpdModel.read_file "data.shp") 4326).crs = 4326 :=
  ⟨fun _ _ => rfl,
   (add_vector_path_wgs84_fit MapA.init gpdModel "data.shp" none []
     (fun _ _ => rfl)).2.2.1,
   (add_vector_path_wgs84_fit MapA.init gpdModel "data.shp" none []
     (fun _ _ => rfl)).2.1⟩

/-- Claim C8 fails on the code: line 81 passes the hover style under the
misspelt keyword "hover_sytle", so the attached layer's `hover_style`
trait keeps the widget default (the empty dict) instead of the
documented yellow style.  This theorem evaluates `add_vector` at a
concrete call with `hover_style` not supplied. -/
theorem add_vector_hover_style_typo :
    ((MapA.init.add_vector gpdModel
        (VectorInput.dict [("type", "FeatureCollection")])
        false none []).1.layers =
      [Layer.geojson (mkGeoJSON [("type", "FeatureCollection")]
        [("hover_sytle", default_hover_style)])]) ∧
    (mkGeoJSON [("type", "FeatureCollection")]
      [("hover_sytle", default_hover_style)]).hover_style = [] ∧
    default_hover_style ≠ [] :=
  ⟨rfl, rfl, by decide⟩

/-- Claim C9: `add_image` and `add_video` attach overlays whose bounds and
opacity equal the inputs exactly, with opacity defaulting to 1. -/
theorem add_image_video_exact (m : MapA) (u : String) (b : List (List ℚ))
    (op : ℚ) :
    m.add_image u b op =
      { m with layers := m.layers ++ [Layer.imageOverlay u b op] } ∧
    m.add_video u b op =
      { m with layers := m.layers ++ [Layer.videoOverlay u b op] } ∧
    m.add_image u b = m.add_image u b 1 ∧
    m.add_video u b = m.add_video u b 1 :=
  ⟨rfl, rfl, rfl, rfl⟩

/-- Claim C10: constructing the folium wrapper map, for every center, zoom
and extra configuration, leaves exactly one layer-visibility control
among its children. -/
theorem foliummap_one_layer_control (center : List ℚ) (zoom : ℕ)
    (kwargs : List (String × String)) :
    ((FoliumMap.init center zoom kwargs).children.countP
      (fun c => c.isLayerControl)) = 1 := rfl

/-- Claim C3 as stated is false on the code: `add_raster` does not only
append a layer — it also sets the map's zoom and center to the tile
client's reported values.  Concretely, a client reporting default zoom 5
rewrites a map constructed at zoom 2 and center [19, 72]. -/
theorem add_raster_changes_zoom :
    ((MapA.init.add_raster { center := [0, 0], default_zoom := 5 }
        (Layer.tile "http://localhost/tile" "raster")).zoom ≠
      MapA.init.zoom) ∧
    ((MapA.init.add_raster { center := [0, 0], default_zoom := 5 }
        (Layer.tile "http://localhost/tile" "raster")).center ≠
      MapA.init.center) :=
  ⟨by decide, by norm_num [MapA.init, MapA.add_raster, MapA.add_layer]⟩

/-- Claim C3 amended: each helper appends at most one layer or control;
`add_basemap`, `add_google_map`, `add_layer_control`, `add_image`,
`add_video`, `add_wms_layer` and `add_vector` leave the map's center and
zoom unchanged (and all but `add_vector` leave the view bounds
unchanged), but `add_raster` additionally sets the center and zoom to
the tile client's reported values, and `add_vector` with
`zoom_to_layer=True` additionally fits the view bounds. -/
theorem helpers_frame_effects (m : MapA) (resolve : String → Option String)
    (nm s : String) (gpd : Gpd) (v : VectorInput) (ztl : Bool)
    (hs : Option Style) (kw : List (String × Style)) (u : String)
    (b : List (List ℚ)) (op : ℚ) (wurl wlayers : String)
    (wname : Option String) (wfmt : String) (wtr : Bool) (wver : String)
    (client : TileClient) (tl : Layer) :
    ((m.add_basemap resolve nm).1.center = m.center ∧
      (m.add_basemap resolve nm).1.zoom = m.zoom ∧
      (m.add_basemap resolve nm).1.viewBounds = m.viewBounds ∧
      (m.add_basemap resolve nm).1.controls = m.controls ∧
      ∃ ls, (m.add_basemap resolve nm).1.layers = m.layers ++ ls ∧
        ls.length ≤ 1) ∧
    ((m.add_google_map s).1.center = m.center ∧
      (m.add_google_map s).1.zoom = m.zoom ∧
      (m.add_google_map s).1.viewBounds = m.viewBounds ∧
      (m.add_google_map s).1.controls = m.controls ∧
      ∃ ls, (m.add_google_map s).1.layers = m.layers ++ ls ∧
        ls.length ≤ 1) ∧
    (m.add_layer_control =
      { m with controls := m.controls ++ [Control.layersControl] }) ∧
    (m.add_image u b op =
      { m with layers := m.layers ++ [Layer.imageOverlay u b op] }) ∧
    (m.add_video u b op =
      { m with layers := m.layers ++ [Layer.videoOverlay u b op] }) ∧
    (m.add_wms_layer wurl wlayers wname wfmt wtr wver =
      { m with layers := m.layers ++
          [Layer.wms wurl wlayers wname wfmt wtr wver] }) ∧
    (m.add_raster client tl =
      { m with
        layers := m.layers ++ [tl]
        center := client.center
        zoom := client.default_zoom }) ∧
    ((m.add_vector gpd v ztl hs kw).1.center = m.center ∧
      (m.add_vector gpd v ztl hs kw).1.zoom = m.zoom ∧
      (m.add_vector gpd v ztl hs kw).1.controls = m.controls ∧
      ∃ g, (m.add_vector gpd v ztl hs kw).1.layers =
        m.layers ++ [Layer.geojson g]) := by
  refine ⟨?_, ?_, rfl, rfl, rfl, rfl, rfl, ?_⟩
  · unfold MapA.add_basemap
    cases resolve nm with
    | some url =>
        exact ⟨rfl, rfl, rfl, rfl, [Layer.tile url nm], rfl, by simp⟩
    | none =>
        cases resolve "OpenTopoMap" with
        | some url =>
            exact ⟨rfl, rfl, rfl, rfl, [Layer.tile url nm], rfl, by simp⟩
        | none => exact ⟨rfl, rfl, rfl, rfl, [], by simp, by simp⟩
  · unfold MapA.add_google_map
    cases map_types.lookup (pyUpper s) with
    | none => exact ⟨rfl, rfl, rfl, rfl, [], by simp, by simp⟩
    | some code =>
        exact ⟨rfl, rfl, rfl, rfl, [Layer.tile
          ("https://mt1.google.com/vt/lyrs=" ++ pyLower code
            ++ "&x={x}&y={y}&z={z}") "Google Map"], rfl, by simp⟩
  · cases v <;> cases ztl <;> exact ⟨rfl, rfl, rfl, _, rfl⟩

end TempInterp
